import Mathlib

/-!
Verification of the NDVI GeoTIFF pipeline (`NvidiaCalculator.py`).

The per-pixel arithmetic of the source runs on numpy float32 arrays.  We model
sample values as exact rationals together with the IEEE special values that the
source explicitly handles (`nan` from 0/0, signed infinities from x/0): rounding
is abstracted away, while the branch structure of the computation — division,
the `isnan` and `isinf` fix-ups, and the final `np.clip` — is translated
branch for branch from the source.
-/

namespace SatelliteNdvi

/-- A float sample as produced by the numpy operations in the source: either a
finite value (modelled exactly as a rational) or one of the IEEE special
values that `calculate_ndvi` tests for (`nan`, `inf`, `-inf`). -/
inductive FVal where
  | fin (q : ℚ)
  | inf
  | ninf
  | nan
deriving DecidableEq

/-- IEEE division as performed by `(nir - red) / (nir + red)` on finite float
operands (source line 36): 0/0 is `nan`, x/0 for nonzero x is a signed
infinity, otherwise the finite quotient. -/
def pixelDiv (num den : ℚ) : FVal :=
  if den = 0 then
    if num = 0 then FVal.nan
    else if 0 < num then FVal.inf
    else FVal.ninf
  else FVal.fin (num / den)

/-- Source line 40: `ndvi[np.isnan(ndvi)] = 0`. -/
def fixNan (v : FVal) : FVal :=
  match v with
  | FVal.nan => FVal.fin 0
  | v => v

/-- Source line 42: `ndvi[np.isinf(ndvi)] = 0`. -/
def fixInf (v : FVal) : FVal :=
  match v with
  | FVal.inf => FVal.fin 0
  | FVal.ninf => FVal.fin 0
  | v => v

/-- Source line 44: `np.clip(ndvi, -1, 1)`, i.e. `minimum(maximum(v, -1), 1)`
with the numpy semantics on special values (`nan` propagates, infinities are
clamped to the bounds). -/
def clipVal (v : FVal) : FVal :=
  match v with
  | FVal.fin q => FVal.fin (min (max q (-1)) 1)
  | FVal.inf => FVal.fin 1
  | FVal.ninf => FVal.fin (-1)
  | FVal.nan => FVal.nan

/-- The staged per-pixel computation of source lines 36-44, applied to the
(already float-converted) red and nir samples of one pixel. -/
def ndviPixel (red nir : ℚ) : FVal :=
  clipVal (fixInf (fixNan (pixelDiv (nir - red) (nir + red))))

/-- The finite value of `ndviPixel`; the staged computation never leaves a
special value in the array (proved in `ndviPixel_eq_fin`), so this is the
sample actually stored at the pixel. -/
def ndviQ (red nir : ℚ) : ℚ :=
  match ndviPixel red nir with
  | FVal.fin q => q
  | _ => 0

lemma ndviQ_of_den_ne (r n : ℚ) (h : n + r ≠ 0) :
    ndviQ r n = min (max ((n - r) / (n + r)) (-1)) 1 := by
  unfold ndviQ ndviPixel pixelDiv
  rw [if_neg h]
  rfl

lemma ndviQ_of_den_eq (r n : ℚ) (h : n + r = 0) : ndviQ r n = 0 := by
  unfold ndviQ ndviPixel pixelDiv
  rw [if_pos h]
  by_cases h0 : n - r = 0
  · rw [if_pos h0]; rfl
  · rw [if_neg h0]
    by_cases h1 : 0 < n - r
    · rw [if_pos h1]; rfl
    · rw [if_neg h1]; rfl

lemma ndviPixel_eq_fin (r n : ℚ) : ndviPixel r n = FVal.fin (ndviQ r n) := by
  unfold ndviQ
  unfold ndviPixel pixelDiv
  by_cases h : n + r = 0
  · rw [if_pos h]
    by_cases h0 : n - r = 0
    · rw [if_pos h0]; rfl
    · rw [if_neg h0]
      by_cases h1 : 0 < n - r
      · rw [if_pos h1]; rfl
      · rw [if_neg h1]; rfl
  · rw [if_neg h]; rfl

lemma ndviQ_bounds (r n : ℚ) : -1 ≤ ndviQ r n ∧ ndviQ r n ≤ 1 := by
  by_cases h : n + r = 0
  · rw [ndviQ_of_den_eq r n h]; norm_num
  · rw [ndviQ_of_den_ne r n h]
    refine ⟨le_min (le_max_right _ _) (by norm_num), min_le_right _ _⟩

lemma ndviQ_self (q : ℚ) : ndviQ q q = 0 := by
  by_cases h : q + q = 0
  · exact ndviQ_of_den_eq q q h
  · rw [ndviQ_of_den_ne q q h]
    simp

lemma clamp_neg (x : ℚ) : min (max (-x) (-1)) 1 = -(min (max x (-1)) 1) := by
  rcases le_total x (-1) with h | h
  · rw [max_eq_right h, max_eq_left (by linarith : (-1 : ℚ) ≤ -x),
      min_eq_right (by linarith : (1 : ℚ) ≤ -x), min_eq_left (by norm_num : (-1 : ℚ) ≤ 1)]
    norm_num
  · rcases le_total 1 x with h2 | h2
    · rw [max_eq_right (by linarith : -x ≤ (-1 : ℚ)), max_eq_left (by linarith : (-1 : ℚ) ≤ x),
        min_eq_left (by norm_num : (-1 : ℚ) ≤ 1), min_eq_right h2]
    · rw [max_eq_left (by linarith : (-1 : ℚ) ≤ -x), max_eq_left h,
        min_eq_left (by linarith : -x ≤ (1 : ℚ)), min_eq_left h2]

lemma ndviQ_swap (r n : ℚ) (h : n + r ≠ 0) : ndviQ n r = -(ndviQ r n) := by
  have h' : r + n ≠ 0 := by rwa [add_comm]
  rw [ndviQ_of_den_ne r n h, ndviQ_of_den_ne n r h']
  rw [add_comm r n, show r - n = -(n - r) by ring, neg_div]
  exact clamp_neg _

/-- A dense 2-D numpy array of finite samples, as returned by `src.read(band)`
after the `.astype(np.float32)` conversion of source lines 30-31 (conversion of
integer satellite samples to float32 is exact, so it is the identity in this
model). -/
structure Band where
  height : ℕ
  width : ℕ
  data : ℕ → ℕ → ℚ

def Band.shape (b : Band) : ℕ × ℕ := (b.height, b.width)

/-- numpy broadcasting compatibility of one axis: the two extents agree or one
of them is 1. -/
def dimCompat (a b : ℕ) : Bool := a == b || a == 1 || b == 1

/-- The index used along one axis of extent `dim` when an array participates in
a broadcast operation: a length-1 axis is repeated. -/
def bcIdx (dim i : ℕ) : ℕ := if dim = 1 then 0 else i

/-- Whether the elementwise operations of source line 36 succeed: numpy raises
a `ValueError` ("operands could not be broadcast together") when some axis is
incompatible. -/
def shapesCompat (a b : Band) : Bool :=
  dimCompat a.height b.height && dimCompat a.width b.width

/-- The ndvi array of source lines 36-44 for broadcast-compatible operand
shapes: the per-pixel staged computation applied under numpy broadcasting.
When both bands have the same shape this is the plain pixelwise map. -/
def ndviArray (red nir : Band) : Band :=
  { height := max red.height nir.height
    width := max red.width nir.width
    data := fun i j =>
      ndviQ (red.data (bcIdx red.height i) (bcIdx red.width j))
            (nir.data (bcIdx nir.height i) (bcIdx nir.width j)) }

lemma bcIdx_lt (d i : ℕ) (h : i < d) : bcIdx d i = i := by
  unfold bcIdx
  split_ifs with h1 <;> omega

lemma ndviArray_data_eq_shape (red nir : Band) (h : red.shape = nir.shape)
    (i j : ℕ) (hi : i < red.height) (hj : j < red.width) :
    (ndviArray red nir).data i j = ndviQ (red.data i j) (nir.data i j) := by
  obtain ⟨hh, hw⟩ : red.height = nir.height ∧ red.width = nir.width := by
    simpa [Band.shape, Prod.ext_iff] using h
  show ndviQ (red.data (bcIdx red.height i) (bcIdx red.width j))
      (nir.data (bcIdx nir.height i) (bcIdx nir.width j)) = _
  rw [bcIdx_lt red.height i hi, bcIdx_lt red.width j hj,
    bcIdx_lt nir.height i (hh ▸ hi), bcIdx_lt nir.width j (hw ▸ hj)]

/-- The metadata dict of a rasterio dataset (`src.meta`), with the keys that
rasterio reports: driver, dtype, nodata, width, height, count, crs,
transform (six affine coefficients). -/
structure RasterMeta where
  driver : String
  dtype : String
  nodata : Option ℚ
  width : ℕ
  height : ℕ
  count : ℕ
  crs : String
  transform : List ℚ
deriving DecidableEq

/-- Source lines 49-58: `out_meta = src.meta.copy()` followed by
`out_meta.update(driver=GTiff, count=1, dtype=float32, nodata=-9999)`; every
other key keeps its copied value. -/
def deriveOutputMeta (m : RasterMeta) : RasterMeta :=
  { m with driver := "GTiff", count := 1, dtype := "float32", nodata := some (-9999) }

/-- The exceptions that can be raised inside the `try` block of
`calculate_ndvi`: a missing input file, the `ValueError` of source lines 23-26
for a bad band number, the numpy broadcast `ValueError` from line 36, and the
rasterio `ValueError` when `dest.write` receives an array whose shape differs
from the destination metadata. -/
inductive PyError where
  | fileNotFound
  | invalidBand (count : ℕ) (red nir : ℤ)
  | broadcastError (s1 s2 : ℕ × ℕ)
  | writeShapeMismatch (bandShape metaShape : ℕ × ℕ)
deriving DecidableEq

/-- The message text carried by each exception; for `invalidBand` this is the
f-string of source lines 24-25 with the placeholders interpolated. -/
def pyMsg : PyError → String
  | PyError.invalidBand count red nir =>
      "Invalid band numbers. File has " ++ toString count ++ " bands, but Red band "
        ++ toString red ++ " and NIR band " ++ toString nir ++ " were requested."
  | PyError.broadcastError s1 s2 =>
      "operands could not be broadcast together with shapes " ++ toString s1
        ++ " " ++ toString s2
  | PyError.writeShapeMismatch b m =>
      "source shape " ++ toString b ++ " does not match destination shape " ++ toString m
  | PyError.fileNotFound => "No such file or directory"

/-- An opened multi-band raster: its metadata and, for each 1-based band
number, the array `src.read` returns for it.  A well-formed GeoTIFF gives all
bands the shape declared in the metadata; the model leaves the shapes free so
that corrupt reads can be discussed. -/
structure Dataset where
  meta : RasterMeta
  bands : ℤ → Band

/-- The band-number check of source line 22:
`0 < red_band_num <= src.count and 0 < nir_band_num <= src.count`. -/
def bandsValid (count : ℕ) (red nir : ℤ) : Bool :=
  (0 < red && red ≤ (count : ℤ)) && (0 < nir && nir ≤ (count : ℤ))

/-- Outcome of the body of the `try` block: the first exception raised (if
any), and the state of the output path — `none` when `rasterio.open(output,
w)` was never reached, otherwise the created file with its metadata and the
band actually written (`none` when `dest.write` failed after creation). -/
structure PipeResult where
  result : Except PyError Unit
  outputFile : Option (RasterMeta × Option Band)

/-- The linear pipeline inside the `try` block of `calculate_ndvi` (source
lines 19-62): open, validate band numbers, read both bands, compute the ndvi
array, derive the output metadata, create the destination and write the band.
`input` is the dataset the input path resolves to (`none` when the file is
missing). -/
def runPipeline (input : Option Dataset) (red nir : ℤ) : PipeResult :=
  match input with
  | none => ⟨Except.error PyError.fileNotFound, none⟩
  | some src =>
    if bandsValid src.meta.count red nir then
      let redB := src.bands red
      let nirB := src.bands nir
      if shapesCompat redB nirB then
        let ndvi := ndviArray redB nirB
        let om := deriveOutputMeta src.meta
        if ndvi.height = om.height ∧ ndvi.width = om.width then
          ⟨Except.ok (), some (om, some ndvi)⟩
        else
          ⟨Except.error (PyError.writeShapeMismatch ndvi.shape (om.height, om.width)),
            some (om, none)⟩
      else
        ⟨Except.error (PyError.broadcastError redB.shape nirB.shape), none⟩
    else
      ⟨Except.error (PyError.invalidBand src.meta.count red nir), none⟩

/-- The lines printed by the two `except` handlers of source lines 66-70: a
`FileNotFoundError` gets the dedicated two-line message, every other
exception is reported through the generic handler. -/
def errorLines (inputPath : String) (e : PyError) : List String :=
  match e with
  | PyError.fileNotFound =>
      ["Error: Input file not found at " ++ inputPath,
       "Please run create_mock_geotiff.py first to generate the sample file."]
  | e => ["An error occurred: " ++ pyMsg e]

/-- What a call of `calculate_ndvi` looks like from its caller: the exception
that escapes the function (if any), the lines it printed, and the state of
the output path afterwards. -/
structure CallResult where
  raised : Option PyError
  printed : List String
  outputFile : Option (RasterMeta × Option Band)

/-- Source lines 17-70: `calculate_ndvi` runs the pipeline inside `try`; on
success it prints the completion message, and both `except` clauses catch the
exception and print a message instead of re-raising, so nothing ever escapes
to the caller. -/
def calculate_ndvi (inputPath outputPath : String) (input : Option Dataset)
    (red nir : ℤ) : CallResult :=
  match (runPipeline input red nir).result with
  | Except.ok _ =>
      ⟨none, ["NDVI calculation complete. Output saved to: " ++ outputPath],
        (runPipeline input red nir).outputFile⟩
  | Except.error e =>
      ⟨none, errorLines inputPath e, (runPipeline input red nir).outputFile⟩

/-- Whether `pat` occurs at the start of `s` (character lists). -/
def leadMatch : List Char → List Char → Bool
  | [], _ => true
  | _ :: _, [] => false
  | c :: cs, d :: ds => c == d && leadMatch cs ds

/-- Whether `pat` occurs contiguously anywhere in `s` (character lists). -/
def containsRun (pat : List Char) : List Char → Bool
  | [] => leadMatch pat []
  | d :: ds => leadMatch pat (d :: ds) || containsRun pat ds

/-- Whether the string `needle` occurs as a contiguous substring of `hay`. -/
def strHas (needle hay : String) : Bool := containsRun needle.data hay.data

/-- A constant band, used as concrete test data. -/
def constBand (h w : ℕ) (q : ℚ) : Band := ⟨h, w, fun _ _ => q⟩

/-- Metadata of the mock GeoTIFF of `MockGeotiffGenerator.py` (5 bands,
uint16, EPSG:4326, affine from_origin(140, -35, 0.01, 0.01)), shrunk to 2x2
pixels for concrete evaluation. -/
def sampleMeta : RasterMeta :=
  { driver := "GTiff", dtype := "uint16", nodata := none, width := 2, height := 2,
    count := 5, crs := "EPSG:4326", transform := [1/100, 0, 140, 0, -(1/100), -35] }

/-- A well-formed 5-band dataset over `sampleMeta`. -/
def sampleDataset : Dataset :=
  { meta := sampleMeta, bands := fun _ => constBand 2 2 1000 }

/-- Claim C1: at every pixel of two same-shaped bands where `nir + red` is
nonzero, the value computed by the per-pixel pipeline of `calculate_ndvi`
equals `clamp((nir - red) / (nir + red), -1, 1)`. -/
theorem ndvi_pixel_matches_clamped_ratio (red nir : Band) (h : red.shape = nir.shape)
    (i j : ℕ) (hi : i < red.height) (hj : j < red.width)
    (hden : nir.data i j + red.data i j ≠ 0) :
    (ndviArray red nir).data i j
      = min (max ((nir.data i j - red.data i j) / (nir.data i j + red.data i j)) (-1)) 1 := by
  rw [ndviArray_data_eq_shape red nir h i j hi hj]
  exact ndviQ_of_den_ne _ _ hden

theorem ndvi_pixel_matches_clamped_ratio_witness :
    (constBand 2 2 1000).shape = (constBand 2 2 3000).shape
    ∧ (constBand 2 2 3000).data 0 0 + (constBand 2 2 1000).data 0 0 ≠ 0
    ∧ (ndviArray (constBand 2 2 1000) (constBand 2 2 3000)).data 0 0
        = min (max (((constBand 2 2 3000).data 0 0 - (constBand 2 2 1000).data 0 0)
            / ((constBand 2 2 3000).data 0 0 + (constBand 2 2 1000).data 0 0)) (-1)) 1 :=
  ⟨rfl, by norm_num [constBand],
    ndvi_pixel_matches_clamped_ratio (constBand 2 2 1000) (constBand 2 2 3000) rfl 0 0
      (by norm_num [constBand]) (by norm_num [constBand]) (by norm_num [constBand])⟩

/-- Claim C2: at every pixel of two same-shaped bands where `nir + red` is
zero (including 0/0) the computed value is exactly 0, and the fix-up stages
replace every non-finite intermediate by 0 rather than by a no-data value. -/
theorem ndvi_zero_denominator_yields_zero (red nir : Band) (h : red.shape = nir.shape)
    (i j : ℕ) (hi : i < red.height) (hj : j < red.width)
    (hden : nir.data i j + red.data i j = 0) :
    (ndviArray red nir).data i j = 0
    ∧ (∀ v : FVal, v = FVal.nan ∨ v = FVal.inf ∨ v = FVal.ninf →
        fixInf (fixNan v) = FVal.fin 0) := by
  constructor
  · rw [ndviArray_data_eq_shape red nir h i j hi hj]
    exact ndviQ_of_den_eq _ _ hden
  · intro v hv
    rcases hv with hv | hv | hv <;> rw [hv] <;> rfl

theorem ndvi_zero_denominator_yields_zero_witness :
    (constBand 2 2 0).shape = (constBand 2 2 0).shape
    ∧ (constBand 2 2 0).data 0 0 + (constBand 2 2 0).data 0 0 = 0
    ∧ ((ndviArray (constBand 2 2 0) (constBand 2 2 0)).data 0 0 = 0
        ∧ (∀ v : FVal, v = FVal.nan ∨ v = FVal.inf ∨ v = FVal.ninf →
            fixInf (fixNan v) = FVal.fin 0)) :=
  ⟨rfl, by norm_num [constBand],
    ndvi_zero_denominator_yields_zero (constBand 2 2 0) (constBand 2 2 0) rfl 0 0
      (by norm_num [constBand]) (by norm_num [constBand]) (by norm_num [constBand])⟩

/-- Claim C3: every sample of the computed index array lies in the closed
interval from -1 to 1, and in particular never equals the no-data sentinel
-9999. -/
theorem ndvi_output_within_unit_interval (red nir : Band) (i j : ℕ) :
    -1 ≤ (ndviArray red nir).data i j
    ∧ (ndviArray red nir).data i j ≤ 1
    ∧ (ndviArray red nir).data i j ≠ -9999 := by
  have hb := ndviQ_bounds (red.data (bcIdx red.height i) (bcIdx red.width j))
    (nir.data (bcIdx nir.height i) (bcIdx nir.width j))
  refine ⟨hb.1, hb.2, ?_⟩
  intro hc
  have : (-9999 : ℚ) < -1 := by norm_num
  rw [show (ndviArray red nir).data i j
      = ndviQ (red.data (bcIdx red.height i) (bcIdx red.width j))
          (nir.data (bcIdx nir.height i) (bcIdx nir.width j)) from rfl] at hc
  linarith [hb.1, hc ▸ hb.1]

theorem ndvi_output_within_unit_interval_witness :
    -1 ≤ (ndviArray (constBand 2 2 1000) (constBand 2 2 3000)).data 0 0
    ∧ (ndviArray (constBand 2 2 1000) (constBand 2 2 3000)).data 0 0 ≤ 1
    ∧ (ndviArray (constBand 2 2 1000) (constBand 2 2 3000)).data 0 0 ≠ -9999 :=
  ndvi_output_within_unit_interval (constBand 2 2 1000) (constBand 2 2 3000) 0 0

/-- Claim C4 counterexample: with a missing input file the pipeline fails, yet
`calculate_ndvi` raises nothing to its caller — the failure is absorbed by the
except handlers, not propagated as a typed failure. -/
theorem calculate_ndvi_absorbs_failure :
    (runPipeline none 1 2).result = Except.error PyError.fileNotFound
    ∧ (calculate_ndvi "sample_multiband.tif" "ndvi_output.tif" none 1 2).raised = none :=
  ⟨rfl, rfl⟩

/-- Claim C4 (amended): every failure aborts the pipeline as its first and
only failure, but `calculate_ndvi` catches it and reports it by printing the
handler message for that failure; nothing is raised to the caller, which
receives no typed failure. -/
theorem calculate_ndvi_reports_failure_by_printing (ip op : String)
    (input : Option Dataset) (red nir : ℤ) :
    (calculate_ndvi ip op input red nir).raised = none
    ∧ (∀ e : PyError, (runPipeline input red nir).result = Except.error e →
        (calculate_ndvi ip op input red nir).printed = errorLines ip e)
    ∧ ((runPipeline input red nir).result = Except.ok () →
        (calculate_ndvi ip op input red nir).printed
          = ["NDVI calculation complete. Output saved to: " ++ op]) := by
  refine ⟨?_, ?_, ?_⟩
  · cases h : (runPipeline input red nir).result <;> simp [calculate_ndvi, h]
  · intro e he
    simp [calculate_ndvi, he]
  · intro hok
    simp [calculate_ndvi, hok]

theorem calculate_ndvi_reports_failure_by_printing_witness :
    (runPipeline none 1 2).result = Except.error PyError.fileNotFound
    ∧ (calculate_ndvi "a.tif" "b.tif" none 1 2).printed
        = errorLines "a.tif" PyError.fileNotFound :=
  ⟨rfl, (calculate_ndvi_reports_failure_by_printing "a.tif" "b.tif" none 1 2).2.1
    PyError.fileNotFound rfl⟩

lemma bandsValid_eq_true_iff (count : ℕ) (red nir : ℤ) :
    bandsValid count red nir = true
      ↔ (0 < red ∧ red ≤ (count : ℤ) ∧ 0 < nir ∧ nir ≤ (count : ℤ)) := by
  simp [bandsValid, and_assoc]

/-- Claim C5: with an opened source, the pipeline fails with the invalid-band
error exactly when a requested index lies outside 1..bandCount; the check
depends only on the metadata, not on any band content (so it happens before
any band is read); and the message for the scenario of band 6 of a 5-band
source contains both the requested number 6 and the available count 5. -/
theorem band_validation_iff_out_of_range :
    (∀ (src : Dataset) (red nir : ℤ),
        (runPipeline (some src) red nir).result
            = Except.error (PyError.invalidBand src.meta.count red nir)
          ↔ (red < 1 ∨ (src.meta.count : ℤ) < red
              ∨ nir < 1 ∨ (src.meta.count : ℤ) < nir))
    ∧ (∀ (src1 src2 : Dataset) (red nir : ℤ), src1.meta = src2.meta →
        bandsValid src1.meta.count red nir = false →
        runPipeline (some src1) red nir = runPipeline (some src2) red nir)
    ∧ strHas "6" (pyMsg (PyError.invalidBand 5 6 2)) = true
    ∧ strHas "5" (pyMsg (PyError.invalidBand 5 6 2)) = true := by
  refine ⟨?_, ?_, by decide, by decide⟩
  · intro src red nir
    constructor
    · intro h
      by_cases hv : bandsValid src.meta.count red nir = true
      · exfalso
        by_cases hsc : shapesCompat (src.bands red) (src.bands nir) = true
        · by_cases hw : (ndviArray (src.bands red) (src.bands nir)).height
              = (deriveOutputMeta src.meta).height
            ∧ (ndviArray (src.bands red) (src.bands nir)).width
              = (deriveOutputMeta src.meta).width
          · simp [runPipeline, hv, hsc, hw] at h
          · simp [runPipeline, hv, hsc, hw] at h
        · simp [runPipeline, hv, hsc] at h
      · rw [bandsValid_eq_true_iff] at hv
        omega
    · intro h
      have hv : bandsValid src.meta.count red nir = false := by
        cases hbv : bandsValid src.meta.count red nir
        · rfl
        · rw [bandsValid_eq_true_iff] at hbv
          omega
      simp [runPipeline, hv]
  · intro src1 src2 red nir hmeta hv
    have hv2 : bandsValid src2.meta.count red nir = false := by rw [← hmeta]; exact hv
    simp only [runPipeline]
    rw [hmeta]
    simp [hv2]

theorem band_validation_iff_out_of_range_witness :
    (runPipeline (some sampleDataset) 6 2).result
      = Except.error (PyError.invalidBand 5 6 2) :=
  (band_validation_iff_out_of_range.1 sampleDataset 6 2).mpr
    (Or.inr (Or.inl (by norm_num [sampleDataset, sampleMeta])))

/-- A dataset whose two bands (corrupt read) have different shapes, 1x1 and
2x2, which numpy broadcasting silently combines. -/
def mixedShapeDataset : Dataset :=
  { meta := { sampleMeta with count := 2 },
    bands := fun k => if k = 1 then constBand 1 1 1 else constBand 2 2 3 }

/-- Claim C6 counterexample: the two bands have different shapes, yet the
pipeline succeeds and creates the output file — no shape-mismatch failure
occurs, because numpy broadcasting accepts the pair of shapes. -/
theorem broadcastable_shape_mismatch_not_rejected :
    (mixedShapeDataset.bands 1).shape ≠ (mixedShapeDataset.bands 2).shape
    ∧ (runPipeline (some mixedShapeDataset) 1 2).result = Except.ok ()
    ∧ (runPipeline (some mixedShapeDataset) 1 2).outputFile.isSome = true :=
  ⟨by decide, rfl, rfl⟩

/-- Claim C6 (amended): when the two band shapes are not broadcast-compatible
(they differ in some axis where neither extent is 1), the computation fails
with the broadcast shape error and no output file has been created;
differing but broadcast-compatible shapes are instead silently combined. -/
theorem incompatible_shapes_fail_before_output (src : Dataset) (red nir : ℤ)
    (hv : bandsValid src.meta.count red nir = true)
    (hc : shapesCompat (src.bands red) (src.bands nir) = false) :
    (runPipeline (some src) red nir).result
        = Except.error (PyError.broadcastError (src.bands red).shape (src.bands nir).shape)
    ∧ (runPipeline (some src) red nir).outputFile = none := by
  constructor <;> simp [runPipeline, hv, hc]

/-- A dataset whose two bands (corrupt read) have shapes 2x2 and 3x3, which
numpy cannot broadcast together. -/
def incompatDataset : Dataset :=
  { meta := { sampleMeta with count := 2 },
    bands := fun k => if k = 1 then constBand 2 2 1 else constBand 3 3 2 }

theorem incompatible_shapes_fail_before_output_witness :
    bandsValid incompatDataset.meta.count 1 2 = true
    ∧ shapesCompat (incompatDataset.bands 1) (incompatDataset.bands 2) = false
    ∧ ((runPipeline (some incompatDataset) 1 2).result
          = Except.error (PyError.broadcastError (incompatDataset.bands 1).shape
              (incompatDataset.bands 2).shape)
        ∧ (runPipeline (some incompatDataset) 1 2).outputFile = none) :=
  ⟨by decide, by decide,
    incompatible_shapes_fail_before_output incompatDataset 1 2 (by decide) (by decide)⟩

/-- A source metadata whose driver key is not GTiff. -/
def pngMeta : RasterMeta := { sampleMeta with driver := "PNG" }

/-- Claim C7 counterexample: the derived output metadata does not copy the
driver key from the source — it forces it to GTiff, so for a non-GTiff
source a field other than bandCount, pixelType and noData differs. -/
theorem derive_meta_changes_driver :
    (deriveOutputMeta pngMeta).driver ≠ pngMeta.driver := by decide

/-- Claim C7 (amended): the derived output metadata copies width, height, crs
and transform verbatim from the source, sets bandCount to 1, pixelType to
float32 and noData to -9999, and additionally forces the driver key to GTiff
(a no-op for GeoTIFF sources); no other field exists to differ. -/
theorem derive_meta_fields (m : RasterMeta) :
    (deriveOutputMeta m).width = m.width
    ∧ (deriveOutputMeta m).height = m.height
    ∧ (deriveOutputMeta m).crs = m.crs
    ∧ (deriveOutputMeta m).transform = m.transform
    ∧ (deriveOutputMeta m).count = 1
    ∧ (deriveOutputMeta m).dtype = "float32"
    ∧ (deriveOutputMeta m).nodata = some (-9999)
    ∧ (deriveOutputMeta m).driver = "GTiff" :=
  ⟨rfl, rfl, rfl, rfl, rfl, rfl, rfl, rfl⟩

/-- Claim C8: at every pixel of two same-shaped bands, swapping which band
plays red and which plays nir flips the sign of the computed index, except at
pixels where the zero denominator forces both results to the sentinel 0. -/
theorem ndvi_antisymmetric_under_band_swap (a b : Band) (h : a.shape = b.shape)
    (i j : ℕ) (hi : i < a.height) (hj : j < a.width) :
    (ndviArray a b).data i j = -((ndviArray b a).data i j)
    ∨ (a.data i j + b.data i j = 0
        ∧ (ndviArray a b).data i j = 0 ∧ (ndviArray b a).data i j = 0) := by
  obtain ⟨hh, hw⟩ : a.height = b.height ∧ a.width = b.width := by
    simpa [Band.shape, Prod.ext_iff] using h
  rw [ndviArray_data_eq_shape a b h i j hi hj,
    ndviArray_data_eq_shape b a h.symm i j (hh ▸ hi) (hw ▸ hj)]
  by_cases hd : a.data i j + b.data i j = 0
  · right
    refine ⟨hd, ?_, ?_⟩
    · exact ndviQ_of_den_eq _ _ (by rw [add_comm]; exact hd)
    · exact ndviQ_of_den_eq _ _ hd
  · left
    exact ndviQ_swap (b.data i j) (a.data i j) hd

theorem ndvi_antisymmetric_under_band_swap_witness :
    (constBand 2 2 1000).shape = (constBand 2 2 3000).shape
    ∧ ((ndviArray (constBand 2 2 1000) (constBand 2 2 3000)).data 0 0
          = -((ndviArray (constBand 2 2 3000) (constBand 2 2 1000)).data 0 0)
        ∨ ((constBand 2 2 1000).data 0 0 + (constBand 2 2 3000).data 0 0 = 0
            ∧ (ndviArray (constBand 2 2 1000) (constBand 2 2 3000)).data 0 0 = 0
            ∧ (ndviArray (constBand 2 2 3000) (constBand 2 2 1000)).data 0 0 = 0)) :=
  ⟨rfl, ndvi_antisymmetric_under_band_swap (constBand 2 2 1000) (constBand 2 2 3000) rfl 0 0
    (by norm_num [constBand]) (by norm_num [constBand])⟩

/-- Claim C9: equal band indices pass the band-number validation whenever they
are in range, and computing the index of a band against itself yields 0 at
every pixel. -/
theorem equal_band_indices_allowed_and_zero (count : ℕ) (k : ℤ)
    (h1 : 0 < k) (h2 : k ≤ (count : ℤ)) :
    bandsValid count k k = true
    ∧ ∀ (b : Band) (i j : ℕ), (ndviArray b b).data i j = 0 := by
  constructor
  · rw [bandsValid_eq_true_iff]
    exact ⟨h1, h2, h1, h2⟩
  · intro b i j
    exact ndviQ_self _

theorem equal_band_indices_allowed_and_zero_witness :
    (0 : ℤ) < 2 ∧ (2 : ℤ) ≤ (5 : ℕ)
    ∧ (bandsValid 5 2 2 = true
        ∧ ∀ (b : Band) (i j : ℕ), (ndviArray b b).data i j = 0) :=
  ⟨by norm_num, by norm_num, equal_band_indices_allowed_and_zero 5 2 (by norm_num) (by norm_num)⟩

/-- Claim C10: the index computation is deterministic — applied to identical
red and nir arrays it produces identical output arrays; no run-dependent
state enters the computation. -/
theorem ndvi_deterministic (red1 red2 nir1 nir2 : Band)
    (hr : red1 = red2) (hn : nir1 = nir2) :
    ndviArray red1 nir1 = ndviArray red2 nir2 := by
  rw [hr, hn]

theorem ndvi_deterministic_witness :
    constBand 2 2 5 = constBand 2 2 5
    ∧ constBand 2 2 7 = constBand 2 2 7
    ∧ ndviArray (constBand 2 2 5) (constBand 2 2 7)
        = ndviArray (constBand 2 2 5) (constBand 2 2 7) :=
  ⟨rfl, rfl, ndvi_deterministic (constBand 2 2 5) (constBand 2 2 5)
    (constBand 2 2 7) (constBand 2 2 7) rfl rfl⟩

end SatelliteNdvi
